import Mathlib

/-!
Shallow embedding of the AMM exchange core of the tokenarena repository:
`_amm_effective_reserves`, `amm_quote` and `amm_swap_confirm` from
`app/api.py`, over the data model of `app/models.py`.

Modelling conventions:
* The source mixes Python `float` and `Decimal`; both are modelled as exact
  rationals (`ℚ`).  `Numeric` database columns are `ℚ`, integer ids are `ℕ`,
  unix timestamps are `ℤ`.
* A SQLAlchemy session is modelled by pure state passing: an endpoint takes a
  database state `DB` and returns its HTTP-level result together with the
  state after the request.  Sessions are created with `autocommit=False` and
  `remove_session` runs at request teardown (`app/__init__.py`), so a return
  that never reaches `s.commit()` leaves the database unchanged: error paths
  return the incoming `DB` unmodified.
* Python truthiness defaults of the form `int(x or d)` on integer columns are
  modelled by `orDefault`, mapping `0` (and NULL, represented as `0`) to `d`.
* The Nostr envelope checks that are cryptographic (the SHA-256 event id
  recomputation and the schnorr signature check) and the field-length checks
  are abstracted as boolean fields of the event; the JSON `content` is
  modelled as an optional record of optional fields (`none` = a key missing
  from the JSON object, outer `none` = `json.loads` failure).  The embedding
  assumes the schnorr library is importable (the `server_missing_schnorr`
  branch is not taken).
-/

namespace TokenArena

/-- One row of `user_balances` (`app/models.py`): the `balance` and
`available` columns. -/
structure Bal where
  balance : ℚ
  available : ℚ
  deriving Repr, DecidableEq

/-- The `pools` table row (`app/models.py`): asset references, fee split in
basis points, and the active flag. -/
structure Pool where
  id : ℕ
  asset_rgb_id : ℕ
  asset_btc_id : ℕ
  fee_bps : ℕ
  lp_fee_bps : ℕ
  platform_fee_bps : ℕ
  is_active : Bool
  deriving Repr, DecidableEq

/-- The `pool_liquidity` table row (`app/models.py`): real and virtual
reserves on both sides. -/
structure PoolLiquidity where
  id : ℕ
  pool_id : ℕ
  reserve_rgb : ℚ
  reserve_btc : ℚ
  reserve_rgb_virtual : ℚ
  reserve_btc_virtual : ℚ
  deriving Repr, DecidableEq

/-- The `status` column of `swaps`, restricted to the four values the code
writes. -/
inductive SwapStatus where
  | pending_approval
  | executed
  | expired
  | failed
  deriving Repr, DecidableEq

/-- The `swaps` table row (`app/models.py`).  `nonce` (a hex string in the
source) is abstracted as a natural number token. -/
structure Swap where
  id : ℕ
  pool_id : ℕ
  user_id : ℕ
  asset_in_id : ℕ
  asset_out_id : ℕ
  amount_in : ℚ
  min_out : ℚ
  amount_out : ℚ
  status : SwapStatus
  nonce : ℕ
  deadline_ts : ℤ
  executed_at : Option ℤ
  deriving Repr, DecidableEq

/-- The `approvals` table row (`app/models.py`). -/
structure Approval where
  swap_id : ℕ
  nostr_pubkey : String
  event_id : String
  sig : String
  approved : Bool
  deriving Repr, DecidableEq

/-- The `ledger_entries` table row (`app/models.py`): a signed delta with a
reference. -/
structure LedgerEntry where
  user_id : ℕ
  asset_id : ℕ
  delta : ℚ
  ref_type : String
  ref_id : ℕ
  deriving Repr, DecidableEq

/-- The parsed JSON `content` of the confirmation event.  Each field is
`none` when the key is missing from the JSON object (the `required` check in
`amm_swap_confirm`). -/
structure SwapPayload where
  ptype : Option String
  swap_id : Option ℤ
  pool_id : Option ℤ
  asset_in_id : Option ℤ
  asset_out_id : Option ℤ
  amount_in : Option ℚ
  min_out : Option ℚ
  nonce : Option ℕ
  deadline_ts : Option ℤ
  deriving Repr, DecidableEq

/-- The client-supplied Nostr event.  `fields_ok` abstracts the
pubkey/sig/id length check, `id_matches` the `_nostr_event_id` recomputation,
`sig_valid` the schnorr verification; `content` is the parsed JSON payload
(`none` when `json.loads` raises). -/
structure NostrEvent where
  pubkey : String
  event_id : String
  sig : String
  fields_ok : Bool
  id_matches : Bool
  sig_valid : Bool
  content : Option SwapPayload
  deriving Repr, DecidableEq

/-- Result of the `/amm/quote` endpoint: the JSON body on success, or the
`error` string of the 4xx response. -/
inductive QuoteResult where
  | ok (pool_id : ℕ) (asset_in : String) (amount_in amount_out : ℚ) (fee_bps : ℕ)
  | err (msg : String)
  deriving Repr, DecidableEq

/-- Result of the `/amm/swap/confirm` endpoint: `{"ok": True, "swap_id": …,
"amount_out": …}` on success, or the `error` string of the failure
response. -/
inductive ConfirmResult where
  | ok (swap_id : ℕ) (amount_out : ℚ)
  | err (msg : String)
  deriving Repr, DecidableEq

/-- The database state the AMM endpoints touch.  `balances` models the
`user_balances` table as a total map from `(user_id, asset_id)`; the
zero-initialised row that `get_balance` creates on first access is the
default value `⟨0, 0⟩`. -/
structure DB where
  swaps : List Swap
  pools : List Pool
  liqs : List PoolLiquidity
  balances : ℕ → ℕ → Bal
  ledger : List LedgerEntry
  approvals : List Approval

/-- Write one `user_balances` row (the ORM mutation of a `UserBalance`
object followed by flush). -/
def setBal (f : ℕ → ℕ → Bal) (u a : ℕ) (b : Bal) : ℕ → ℕ → Bal :=
  fun u2 a2 => if u2 = u ∧ a2 = a then b else f u2 a2

/-- `s.query(Swap).filter(Swap.id == swap_id, Swap.user_id == uid).one_or_none()` -/
def findSwap (l : List Swap) (swap_id : ℤ) (uid : ℕ) : Option Swap :=
  l.find? (fun sw => ((sw.id : ℤ) == swap_id) && (sw.user_id == uid))

/-- `s.query(Pool).filter(Pool.id == pool_id, Pool.is_active == True).one_or_none()` -/
def findPool (l : List Pool) (pool_id : ℤ) : Option Pool :=
  l.find? (fun p => ((p.id : ℤ) == pool_id) && p.is_active)

/-- `s.query(PoolLiquidity).filter(PoolLiquidity.pool_id == pool_id).one_or_none()` -/
def findLiq (l : List PoolLiquidity) (pool_id : ℕ) : Option PoolLiquidity :=
  l.find? (fun pl => pl.pool_id == pool_id)

/-- Replace the swap row with the given id (the ORM identity-map mutation of
a loaded `Swap` object). -/
def updateSwap (l : List Swap) (sid : ℕ) (sw : Swap) : List Swap :=
  l.map (fun x => if x.id = sid then sw else x)

/-- Replace the liquidity row with the given id (the ORM identity-map
mutation of a loaded `PoolLiquidity` object). -/
def updateLiq (l : List PoolLiquidity) (lid : ℕ) (pl : PoolLiquidity) : List PoolLiquidity :=
  l.map (fun x => if x.id = lid then pl else x)

/-- Python `int(x or d)` on an integer column: `0` (and NULL, which the
embedding folds into `0`) falls back to the default `d`. -/
def orDefault (x d : ℕ) : ℕ :=
  if x = 0 then d else x

/-- `_amm_effective_reserves` (`app/api.py`): effective = real + virtual, on
each side; `none` when the pool has no `PoolLiquidity` row. -/
def _amm_effective_reserves (liqs : List PoolLiquidity) (pool_id : ℕ) :
    Option (ℚ × ℚ) :=
  match findLiq liqs pool_id with
  | none => none
  | some pl =>
    some (pl.reserve_rgb + pl.reserve_rgb_virtual,
          pl.reserve_btc + pl.reserve_btc_virtual)

/-- `amm_quote` (`app/api.py`), after request parsing: parameter validation,
active-pool lookup, effective reserves, then the direction-specific
constant-product formula.  On the BTC (settlement) leg the fee is taken from
the input, on the RGB (registered) leg from the output. -/
def amm_quote (pools : List Pool) (liqs : List PoolLiquidity)
    (pool_id : ℤ) (asset_in : String) (amount_in : ℚ) : QuoteResult :=
  if pool_id ≤ 0 ∨ amount_in ≤ 0 ∨ (asset_in ≠ "BTC" ∧ asset_in ≠ "RGB") then
    .err "invalid_params"
  else
    match findPool pools pool_id with
    | none => .err "pool_not_found"
    | some pool =>
      match _amm_effective_reserves liqs pool.id with
      | none => .err "no_liquidity"
      | some (R_rgb, R_btc) =>
        let fee_bps := orDefault pool.fee_bps 100
        let total_fee : ℚ := (fee_bps : ℚ) / 10000
        if asset_in = "BTC" then
          let R_in := R_btc
          let R_out := R_rgb
          let ain_eff := amount_in * (1 - total_fee)
          if R_in ≤ 0 ∨ R_out ≤ 0 then .err "no_liquidity"
          else .ok pool.id asset_in amount_in ((ain_eff * R_out) / (R_in + ain_eff)) fee_bps
        else
          let R_in := R_rgb
          let R_out := R_btc
          if R_in ≤ 0 ∨ R_out ≤ 0 then .err "no_liquidity"
          else
            let out_gross := (amount_in * R_out) / (R_in + amount_in)
            .ok pool.id asset_in amount_in (out_gross * (1 - total_fee)) fee_bps

/-- The tail of `amm_swap_confirm` (`app/api.py`) that runs after the
direction-specific branch: the second available-balance check, the second
round of balance debits/credits, the second platform-fee credit (always on
`asset_in`, with the fee recomputed from `amount_in`), the gross reserve
update, marking the swap executed, the `Approval` row and the `LedgerEntry`
rows, followed by `s.commit()`.  `balances` and `pl` carry the mutations the
branch already applied; the `insufficient_funds` return never commits, so it
yields the incoming database unchanged. -/
def amm_swap_confirm_commit (db : DB) (now : ℤ) (platform_user_id : ℕ)
    (uid : ℕ) (ev : NostrEvent) (sw : Swap) (pool : Pool) (pl : PoolLiquidity)
    (balances : ℕ → ℕ → Bal) (amount_in amount_out : ℚ) (platform_bps : ℕ) :
    ConfirmResult × DB :=
  let bal_in := balances uid sw.asset_in_id
  if bal_in.available < amount_in then (.err "insufficient_funds", db)
  else
    let platform_fee := amount_in * ((platform_bps : ℚ) / 10000)
    let balances1 := setBal balances uid sw.asset_in_id
      ⟨bal_in.balance - amount_in, bal_in.available - amount_in⟩
    let bal_out := balances1 uid sw.asset_out_id
    let balances2 := setBal balances1 uid sw.asset_out_id
      ⟨bal_out.balance + amount_out, bal_out.available + amount_out⟩
    let balances3 :=
      if 0 < platform_user_id ∧ 0 < platform_fee then
        let pbal := balances2 platform_user_id sw.asset_in_id
        setBal balances2 platform_user_id sw.asset_in_id
          ⟨pbal.balance + platform_fee, pbal.available + platform_fee⟩
      else balances2
    let pl2 :=
      if sw.asset_in_id = pool.asset_btc_id then
        { pl with reserve_btc := pl.reserve_btc + amount_in,
                  reserve_rgb := max 0 (pl.reserve_rgb - amount_out) }
      else
        { pl with reserve_rgb := pl.reserve_rgb + amount_in,
                  reserve_btc := max 0 (pl.reserve_btc - amount_out) }
    let sw2 := { sw with amount_out := amount_out, status := .executed,
                         executed_at := some now }
    let fee_asset_id :=
      if sw.asset_in_id = pool.asset_btc_id then sw.asset_in_id else sw.asset_out_id
    let entries : List LedgerEntry :=
      [⟨uid, sw.asset_in_id, -amount_in, "swap", sw.id⟩,
       ⟨uid, sw.asset_out_id, amount_out, "swap", sw.id⟩] ++
      (if 0 < platform_user_id ∧ 0 < platform_fee then
        [⟨platform_user_id, fee_asset_id, platform_fee, "fee", sw.id⟩]
      else [])
    (.ok sw.id amount_out,
     { db with
        swaps := updateSwap db.swaps sw.id sw2,
        liqs := updateLiq db.liqs pl.id pl2,
        balances := balances3,
        ledger := db.ledger ++ entries,
        approvals := db.approvals ++ [⟨sw.id, ev.pubkey, ev.event_id, ev.sig, true⟩] })

/-- `amm_swap_confirm` (`app/api.py`), after session/auth resolution:
`now` is `int(datetime.utcnow().timestamp())`, `platform_user_id` the
`PLATFORM_USER_ID` environment value (`0` when unset), `uid` the
authenticated user.  Validation and verification run first; then the
direction-specific branch re-quotes against current reserves, checks
slippage and funds, and applies balance/reserve mutations; then the shared
commit tail (`amm_swap_confirm_commit`) applies its second round of
mutations and commits.  Every error return happens before `s.commit()` and
therefore leaves the database unchanged. -/
def amm_swap_confirm (db : DB) (now : ℤ) (platform_user_id : ℕ)
    (uid : ℕ) (swap_id : ℤ) (ev : NostrEvent) : ConfirmResult × DB :=
  if swap_id ≤ 0 then (.err "invalid_swap_id", db)
  else
    match findSwap db.swaps swap_id uid with
    | none => (.err "invalid_state", db)
    | some sw =>
      if sw.status ≠ .pending_approval then (.err "invalid_state", db)
      else if ¬ ev.fields_ok then (.err "invalid_event_fields", db)
      else if ¬ ev.id_matches then (.err "invalid_event_id", db)
      else if ¬ ev.sig_valid then (.err "invalid_signature", db)
      else
        match ev.content with
        | none => (.err "verify_failed", db)
        | some data =>
          if data.ptype.isNone ∨ data.swap_id.isNone ∨ data.pool_id.isNone ∨
             data.asset_in_id.isNone ∨ data.asset_out_id.isNone ∨
             data.amount_in.isNone ∨ data.min_out.isNone ∨
             data.nonce.isNone ∨ data.deadline_ts.isNone then
            (.err "invalid_payload", db)
          else if data.ptype ≠ some "swap" ∨ data.swap_id ≠ some (sw.id : ℤ) ∨
                  data.nonce ≠ some sw.nonce ∨
                  data.deadline_ts ≠ some sw.deadline_ts then
            (.err "mismatch", db)
          else if sw.deadline_ts < now then (.err "expired", db)
          else
            match findPool db.pools (sw.pool_id : ℤ) with
            | none => (.err "pool_not_found", db)
            | some pool =>
              match findLiq db.liqs pool.id with
              | none => (.err "no_liquidity", db)
              | some pl =>
                let R_rgb := pl.reserve_rgb + pl.reserve_rgb_virtual
                let R_btc := pl.reserve_btc + pl.reserve_btc_virtual
                let fee_bps := orDefault pool.fee_bps 100
                let platform_bps := orDefault pool.platform_fee_bps 50
                let lp_bps := orDefault pool.lp_fee_bps 50
                let total_fee : ℚ := (fee_bps : ℚ) / 10000
                let amount_in := sw.amount_in
                let min_out := sw.min_out
                if sw.asset_in_id = pool.asset_btc_id then
                  -- BTC -> RGB: fee on the BTC input (the unused `lp_fee`
                  -- local of the source is dropped).
                  let R_in := R_btc
                  let R_out := R_rgb
                  if R_in ≤ 0 ∨ R_out ≤ 0 then (.err "no_liquidity", db)
                  else
                    let ain_eff := amount_in * (1 - total_fee)
                    let amount_out := (ain_eff * R_out) / (R_in + ain_eff)
                    if amount_out < min_out then (.err "slippage", db)
                    else
                      let platform_fee := amount_in * ((platform_bps : ℚ) / 10000)
                      let bal_in := db.balances uid sw.asset_in_id
                      if bal_in.available < amount_in then (.err "insufficient_funds", db)
                      else
                        let balances1 := setBal db.balances uid sw.asset_in_id
                          ⟨bal_in.balance - amount_in, bal_in.available - amount_in⟩
                        let bal_out := balances1 uid sw.asset_out_id
                        let balances2 := setBal balances1 uid sw.asset_out_id
                          ⟨bal_out.balance + amount_out, bal_out.available + amount_out⟩
                        let balances3 :=
                          if 0 < platform_user_id ∧ 0 < platform_fee then
                            let pbal := balances2 platform_user_id sw.asset_in_id
                            setBal balances2 platform_user_id sw.asset_in_id
                              ⟨pbal.balance + platform_fee, pbal.available + platform_fee⟩
                          else balances2
                        let pl1 :=
                          { pl with
                              reserve_btc := pl.reserve_btc + (amount_in - platform_fee),
                              reserve_rgb := max 0 (pl.reserve_rgb - amount_out) }
                        amm_swap_confirm_commit db now platform_user_id uid ev sw pool
                          pl1 balances3 amount_in amount_out platform_bps
                else
                  -- RGB -> BTC: fee on the BTC output.
                  let R_in := R_rgb
                  let R_out := R_btc
                  if R_in ≤ 0 ∨ R_out ≤ 0 then (.err "no_liquidity", db)
                  else
                    let out_gross := (amount_in * R_out) / (R_in + amount_in)
                    let platform_fee := out_gross * ((platform_bps : ℚ) / 10000)
                    let lp_fee := out_gross * ((lp_bps : ℚ) / 10000)
                    let amount_out := out_gross - (platform_fee + lp_fee)
                    if amount_out < min_out then (.err "slippage", db)
                    else
                      let bal_in := db.balances uid sw.asset_in_id
                      if bal_in.available < amount_in then (.err "insufficient_funds", db)
                      else
                        let balances1 := setBal db.balances uid sw.asset_in_id
                          ⟨bal_in.balance - amount_in, bal_in.available - amount_in⟩
                        let bal_out := balances1 uid sw.asset_out_id
                        let balances2 := setBal balances1 uid sw.asset_out_id
                          ⟨bal_out.balance + amount_out, bal_out.available + amount_out⟩
                        let balances3 :=
                          if 0 < platform_user_id ∧ 0 < platform_fee then
                            let pbal := balances2 platform_user_id sw.asset_out_id
                            setBal balances2 platform_user_id sw.asset_out_id
                              ⟨pbal.balance + platform_fee, pbal.available + platform_fee⟩
                          else balances2
                        let pl1 :=
                          { pl with
                              reserve_rgb := pl.reserve_rgb + amount_in,
                              reserve_btc := max 0 (pl.reserve_btc - (amount_out + platform_fee)) }
                        amm_swap_confirm_commit db now platform_user_id uid ev sw pool
                          pl1 balances3 amount_in amount_out platform_bps

/-! ## Statement helpers (abbreviations over the embedded code, used to
phrase theorems; the endpoint definitions above do not use them). -/

/-- Effective RGB-side reserve, as recomputed inline by both endpoints. -/
def effRgb (pl : PoolLiquidity) : ℚ :=
  pl.reserve_rgb + pl.reserve_rgb_virtual

/-- Effective BTC-side reserve, as recomputed inline by both endpoints. -/
def effBtc (pl : PoolLiquidity) : ℚ :=
  pl.reserve_btc + pl.reserve_btc_virtual

/-- The BTC→RGB output: the same formula is used by `amm_quote` and by the
re-quote in `amm_swap_confirm` (fee deducted from the input). -/
def outBtcIn (pool : Pool) (pl : PoolLiquidity) (amount_in : ℚ) : ℚ :=
  (amount_in * (1 - (orDefault pool.fee_bps 100 : ℚ) / 10000) * effRgb pl) /
    (effBtc pl + amount_in * (1 - (orDefault pool.fee_bps 100 : ℚ) / 10000))

/-- The RGB→BTC output of `amm_quote`: gross constant-product output with
the whole fee deducted from the output. -/
def quoteOutRgbIn (pool : Pool) (pl : PoolLiquidity) (amount_in : ℚ) : ℚ :=
  (amount_in * effBtc pl) / (effRgb pl + amount_in) *
    (1 - (orDefault pool.fee_bps 100 : ℚ) / 10000)

/-- The (net) RGB→BTC output the `amm_swap_confirm` branch re-quotes: gross
output minus the platform and LP fee shares. -/
def confirmOutRgbIn (pool : Pool) (pl : PoolLiquidity) (amount_in : ℚ) : ℚ :=
  (amount_in * effBtc pl) / (effRgb pl + amount_in) -
    ((amount_in * effBtc pl) / (effRgb pl + amount_in) *
        ((orDefault pool.platform_fee_bps 50 : ℚ) / 10000) +
      (amount_in * effBtc pl) / (effRgb pl + amount_in) *
        ((orDefault pool.lp_fee_bps 50 : ℚ) / 10000))

/-- Sum of all ledger deltas recorded for one asset. -/
def ledgerSum (l : List LedgerEntry) (asset_id : ℕ) : ℚ :=
  (l.filter (fun e => e.asset_id == asset_id)).foldl (fun acc e => acc + e.delta) 0

/-- The `reserve_btc` column of a pool's liquidity row (`0` if absent). -/
def reserveBtcOf (db : DB) (pool_id : ℕ) : ℚ :=
  match findLiq db.liqs pool_id with
  | some pl => pl.reserve_btc
  | none => 0

/-- The `reserve_rgb` column of a pool's liquidity row (`0` if absent). -/
def reserveRgbOf (db : DB) (pool_id : ℕ) : ℚ :=
  match findLiq db.liqs pool_id with
  | some pl => pl.reserve_rgb
  | none => 0

/-- The `amount_out` field of a quote response (`0` on error). -/
def amountOutOf : QuoteResult → ℚ
  | .ok _ _ _ amount_out _ => amount_out
  | .err _ => 0

/-! ## A concrete database fixture

One active pool (id 1) pairing BTC (asset 1) against an RGB asset (asset 2),
fees 100 bps total split 50/50, real reserves 100 BTC / 10000 RGB, no
virtual reserves.  User 7 holds 100 BTC and submits a pending BTC→RGB swap
of `amount_in = 10`, `min_out = 0`, nonce 42, deadline 1000; the platform
account is user 9.  The confirmation event carries the exact canonical
payload of the swap and passes every envelope check. -/

def fxPool : Pool := ⟨1, 2, 1, 100, 50, 50, true⟩

def fxLiq : PoolLiquidity := ⟨1, 1, 10000, 100, 0, 0⟩

def fxSwap : Swap := ⟨1, 1, 7, 1, 2, 10, 0, 0, .pending_approval, 42, 1000, none⟩

def fxPayload : SwapPayload :=
  ⟨some "swap", some 1, some 1, some 1, some 2, some 10, some 0, some 42, some 1000⟩

def fxEvent : NostrEvent := ⟨"pk", "eid", "sg", true, true, true, some fxPayload⟩

def fxBal : ℕ → ℕ → Bal := fun u a => if u = 7 ∧ a = 1 then ⟨100, 100⟩ else ⟨0, 0⟩

def fxDB : DB := ⟨[fxSwap], [fxPool], [fxLiq], fxBal, [], []⟩

/-- The executed confirm on the fixture: `now = 500` is before the deadline,
user 7 confirms swap 1, platform account 9. -/
def fxRun : ConfirmResult × DB := amm_swap_confirm fxDB 500 9 7 1 fxEvent

/-- The re-quoted output on the fixture:
`9.9 · 10000 / (100 + 9.9) = 990000/1099`. -/
def fxOut : ℚ := 990000 / 1099

/-- The fixture swap already in the terminal EXECUTED state, with stored
`amount_out = 5`. -/
def fxSwapExecuted : Swap := ⟨1, 1, 7, 1, 2, 10, 0, 5, .executed, 42, 1000, some 400⟩

/-- The fixture database holding only the already-executed swap. -/
def fxDBExecuted : DB := ⟨[fxSwapExecuted], [fxPool], [fxLiq], fxBal, [], []⟩

/-- The fixture swap with `min_out = 1000000`, far above any attainable
output, so the re-quote at confirm violates it. -/
def fxSwapHighMin : Swap :=
  ⟨1, 1, 7, 1, 2, 10, 1000000, 0, .pending_approval, 42, 1000, none⟩

/-- The fixture database holding the high-`min_out` pending swap. -/
def fxDBHighMin : DB := ⟨[fxSwapHighMin], [fxPool], [fxLiq], fxBal, [], []⟩

/-- The fixture payload with `amount_in` replaced by `999` (≠ the swap row's
`amount_in = 10`); `type`, `swap_id`, `nonce` and `deadline_ts` still
match. -/
def fxPayloadTampered : SwapPayload :=
  ⟨some "swap", some 1, some 1, some 1, some 2, some 999, some 0, some 42, some 1000⟩

/-- The fixture event carrying the tampered payload, passing every envelope
check. -/
def fxEventTampered : NostrEvent := ⟨"pk", "eid", "sg", true, true, true, some fxPayloadTampered⟩

/-- The fixture payload with a wrong nonce (`43` ≠ the swap row's `42`). -/
def fxPayloadBadNonce : SwapPayload :=
  ⟨some "swap", some 1, some 1, some 1, some 2, some 10, some 0, some 43, some 1000⟩

/-- The fixture event carrying the wrong-nonce payload. -/
def fxEventBadNonce : NostrEvent := ⟨"pk", "eid", "sg", true, true, true, some fxPayloadBadNonce⟩

/-- The fixture pool with `fee_bps = 0`: `int(pool.fee_bps or 100)` turns
this into an effective fee of 100 bps. -/
def fxPoolZeroFee : Pool := ⟨1, 2, 1, 0, 50, 50, true⟩

/-- The fixture pool with `fee_bps = 50`. -/
def fxPoolFee50 : Pool := ⟨1, 2, 1, 50, 50, 50, true⟩

/-! ## Shared lemmas -/

/-- `findPool` on a one-row table finds the active pool by its id. -/
theorem findPool_singleton (pool : Pool) (hact : pool.is_active = true) :
    findPool [pool] (pool.id : ℤ) = some pool := by
  simp [findPool, List.find?, hact]

/-- `findLiq` on a one-row table finds the liquidity row by pool id. -/
theorem findLiq_singleton (pool : Pool) (pl : PoolLiquidity)
    (hpl : pl.pool_id = pool.id) :
    findLiq [pl] pool.id = some pl := by
  simp [findLiq, List.find?, hpl]

/-- With positive effective reserves, `amm_quote` on the BTC (settlement)
leg returns `ok` with the input-fee constant-product output. -/
theorem quote_btc_ok (pools : List Pool) (liqs : List PoolLiquidity)
    (pool : Pool) (pl : PoolLiquidity) (pid : ℤ) (a : ℚ)
    (hpool : findPool pools pid = some pool)
    (hliq : findLiq liqs pool.id = some pl)
    (hpid : 0 < pid) (ha : 0 < a)
    (hRb : 0 < effBtc pl) (hRr : 0 < effRgb pl) :
    amm_quote pools liqs pid "BTC" a =
      .ok pool.id "BTC" a (outBtcIn pool pl a) (orDefault pool.fee_bps 100) := by
  rw [effBtc] at hRb
  rw [effRgb] at hRr
  simp [amm_quote, _amm_effective_reserves, hpool, hliq, hpid.not_le, ha.not_le,
    hRb.not_le, hRr.not_le, outBtcIn, effBtc, effRgb]

/-- With positive effective reserves, `amm_quote` on the RGB (registered)
leg returns `ok` with the output-fee constant-product output. -/
theorem quote_rgb_ok (pools : List Pool) (liqs : List PoolLiquidity)
    (pool : Pool) (pl : PoolLiquidity) (pid : ℤ) (a : ℚ)
    (hpool : findPool pools pid = some pool)
    (hliq : findLiq liqs pool.id = some pl)
    (hpid : 0 < pid) (ha : 0 < a)
    (hRb : 0 < effBtc pl) (hRr : 0 < effRgb pl) :
    amm_quote pools liqs pid "RGB" a =
      .ok pool.id "RGB" a (quoteOutRgbIn pool pl a) (orDefault pool.fee_bps 100) := by
  rw [effBtc] at hRb
  rw [effRgb] at hRr
  simp [amm_quote, _amm_effective_reserves, hpool, hliq, hpid.not_le, ha.not_le,
    hRb.not_le, hRr.not_le, quoteOutRgbIn, effBtc, effRgb]

/-- When either effective reserve is non-positive, `amm_quote` reports
`no_liquidity` in both directions. -/
theorem quote_noliq (pools : List Pool) (liqs : List PoolLiquidity)
    (pool : Pool) (pl : PoolLiquidity) (pid : ℤ) (a : ℚ)
    (hpool : findPool pools pid = some pool)
    (hliq : findLiq liqs pool.id = some pl)
    (hpid : 0 < pid) (ha : 0 < a)
    (hR : effBtc pl ≤ 0 ∨ effRgb pl ≤ 0) :
    amm_quote pools liqs pid "BTC" a = .err "no_liquidity" ∧
      amm_quote pools liqs pid "RGB" a = .err "no_liquidity" := by
  rw [effBtc, effRgb] at hR
  have hR1 : pl.reserve_btc + pl.reserve_btc_virtual ≤ 0 ∨
      pl.reserve_rgb + pl.reserve_rgb_virtual ≤ 0 := hR
  have hR2 : pl.reserve_rgb + pl.reserve_rgb_virtual ≤ 0 ∨
      pl.reserve_btc + pl.reserve_btc_virtual ≤ 0 := Or.symm hR
  constructor
  · simp [amm_quote, _amm_effective_reserves, hpool, hliq, hpid.not_le, ha.not_le, hR1]
  · simp [amm_quote, _amm_effective_reserves, hpool, hliq, hpid.not_le, ha.not_le, hR2]

/-- Strict monotonicity of the constant-product payout
`t ↦ t·R_out/(R_in + t)` on nonnegative inputs. -/
theorem cp_payout_strict_mono (R_in R_out t1 t2 : ℚ)
    (hRin : 0 < R_in) (hRout : 0 < R_out) (h0 : 0 ≤ t1) (h : t1 < t2) :
    t1 * R_out / (R_in + t1) < t2 * R_out / (R_in + t2) := by
  rw [div_lt_div_iff₀ (by linarith) (by linarith)]
  nlinarith [mul_pos (mul_pos (sub_pos.mpr h) hRout) hRin]

/-- The effective total fee `int(fee_bps or 100)` stays below 100% when the
stored fee does. -/
theorem orDefault_fee_lt (f : ℕ) (h : f < 10000) : orDefault f 100 < 10000 := by
  unfold orDefault
  split <;> omega

/-- A nonzero stored fee passes through `int(fee_bps or d)` unchanged. -/
theorem orDefault_id_of_pos (f d : ℕ) (h : 1 ≤ f) : orDefault f d = f := by
  unfold orDefault
  rw [if_neg (by omega)]

/-! ## Claims -/

/-- C1: False of the code as specified.  On the fixture, the swap confirm
executes (`ok` with the re-quoted `amount_out = 990000/1099`), but the
trader's balance and available for `asset_in` each decrease by
`2 · amount_in = 20`, not by `amount_in = 10`, and the balance/available for
`asset_out` each increase by `2 · amount_out`: the direction branch and the
shared commit tail of `amm_swap_confirm` both apply the transfer. -/
theorem c1_double_debit_at_executed_confirm :
    fxRun.1 = .ok 1 fxOut ∧
    (fxRun.2.balances 7 1).balance = 100 - 2 * 10 ∧
    (fxRun.2.balances 7 1).available = 100 - 2 * 10 ∧
    (fxRun.2.balances 7 2).balance = 2 * fxOut ∧
    (fxRun.2.balances 7 2).available = 2 * fxOut ∧
    (100 - 2 * 10 : ℚ) ≠ 100 - 10 ∧
    (2 * fxOut : ℚ) ≠ fxOut := by
  norm_num [fxRun, fxDB, fxSwap, fxPool, fxLiq, fxEvent, fxPayload, fxBal, fxOut,
    amm_swap_confirm, amm_swap_confirm_commit, findSwap, findPool, findLiq,
    List.find?, setBal, updateSwap, updateLiq, orDefault, reserveBtcOf,
    reserveRgbOf, ledgerSum]

/-- C2: False of the code as specified.  On the fixture's executed BTC-in
confirm, the pool's real settlement reserve grows by
`(amount_in − platform_fee) + amount_in = 19.95`, not by
`amount_in − platform_fee = 9.95`, and the real registered reserve falls by
`2 · amount_out`, not by `amount_out`: the direction branch applies the
specified reserve rule and the commit tail then applies a second, gross
update. -/
theorem c2_double_reserve_update_at_executed_confirm :
    fxRun.1 = .ok 1 fxOut ∧
    reserveBtcOf fxRun.2 1 = 100 + (10 - 1 / 20) + 10 ∧
    reserveRgbOf fxRun.2 1 = 10000 - 2 * fxOut ∧
    (100 + (10 - 1 / 20) + 10 : ℚ) ≠ 100 + (10 - 1 / 20) ∧
    (10000 - 2 * fxOut : ℚ) ≠ 10000 - fxOut := by
  norm_num [fxRun, fxDB, fxSwap, fxPool, fxLiq, fxEvent, fxPayload, fxBal, fxOut,
    amm_swap_confirm, amm_swap_confirm_commit, findSwap, findPool, findLiq,
    List.find?, setBal, updateSwap, updateLiq, orDefault, reserveBtcOf,
    reserveRgbOf, ledgerSum]

/-- C3: False of the code as specified.  On the fixture's executed swap, the
input-asset (BTC) deltas across trader, platform and the pool's real reserve
sum to `1/20` (one platform fee), not `0`; and the ledger deltas written for
the swap's `ref_id` understate the balance changes: the ledger records
`−10` for the trader's BTC and `+1/20` for the platform while the balances
moved by `−20` and `+1/10`, and records `+amount_out` for the trader's RGB
while the balance moved by `+2 · amount_out`. -/
theorem c3_conservation_violated_at_executed_confirm :
    fxRun.1 = .ok 1 fxOut ∧
    ((fxRun.2.balances 7 1).balance - (fxDB.balances 7 1).balance) +
        ((fxRun.2.balances 9 1).balance - (fxDB.balances 9 1).balance) +
        (reserveBtcOf fxRun.2 1 - reserveBtcOf fxDB 1) = 1 / 20 ∧
    (1 / 20 : ℚ) ≠ 0 ∧
    ledgerSum fxRun.2.ledger 1 = -(10 : ℚ) + 1 / 20 ∧
    ((fxRun.2.balances 7 1).balance - (fxDB.balances 7 1).balance) +
        ((fxRun.2.balances 9 1).balance - (fxDB.balances 9 1).balance) =
      -(20 : ℚ) + 1 / 10 ∧
    (-(10 : ℚ) + 1 / 20) ≠ -(20 : ℚ) + 1 / 10 ∧
    ledgerSum fxRun.2.ledger 2 = fxOut ∧
    ((fxRun.2.balances 7 2).balance - (fxDB.balances 7 2).balance) = 2 * fxOut ∧
    (fxOut : ℚ) ≠ 2 * fxOut := by
  norm_num [fxRun, fxDB, fxSwap, fxPool, fxLiq, fxEvent, fxPayload, fxBal, fxOut,
    amm_swap_confirm, amm_swap_confirm_commit, findSwap, findPool, findLiq,
    List.find?, setBal, updateSwap, updateLiq, orDefault, reserveBtcOf,
    reserveRgbOf, ledgerSum]

/-- C4 counterexample: confirming the already-EXECUTED fixture swap returns
the `invalid_state` error (HTTP 400), not the stored terminal outcome
`ok (swap_id, amount_out) = ok 1 5` that the claim promises. -/
theorem c4_counterexample_terminal_returns_error :
    amm_swap_confirm fxDBExecuted 500 9 7 1 fxEvent =
      (.err "invalid_state", fxDBExecuted) ∧
    ConfirmResult.err "invalid_state" ≠ ConfirmResult.ok 1 5 := by
  refine ⟨?_, by decide⟩
  norm_num [amm_swap_confirm, fxDBExecuted, fxSwapExecuted, fxEvent, fxPayload,
    findSwap, List.find?,
    show SwapStatus.executed ≠ SwapStatus.pending_approval from by decide]

/-- C4 amended: confirming a swap that is not in PENDING_APPROVAL (for
example already EXECUTED) returns the `invalid_state` error and performs no
mutation — no new LedgerEntry rows, no balance change, no reserve change —
but it does not return the stored terminal outcome. -/
theorem c4_terminal_confirm_error_noop (db : DB) (now : ℤ)
    (platform_user_id uid : ℕ) (swap_id : ℤ) (ev : NostrEvent) (sw : Swap)
    (hpos : 0 < swap_id)
    (hfind : findSwap db.swaps swap_id uid = some sw)
    (hterm : sw.status ≠ .pending_approval) :
    amm_swap_confirm db now platform_user_id uid swap_id ev =
      (.err "invalid_state", db) := by
  unfold amm_swap_confirm
  rw [if_neg (not_le.mpr hpos), hfind]
  simp [hterm]

/-- C4 witness: the amended statement evaluated on the executed-swap
fixture. -/
theorem c4_terminal_confirm_error_noop_witness :
    amm_swap_confirm fxDBExecuted 500 9 7 1 fxEvent =
      (.err "invalid_state", fxDBExecuted) :=
  c4_terminal_confirm_error_noop fxDBExecuted 500 9 7 1 fxEvent fxSwapExecuted
    (by norm_num) (by decide) (by decide)

/-- C5 counterexample: confirming the pending fixture swap at `now = 2000`,
after its deadline 1000, returns the `expired` error and leaves the database
— including the swap row — unchanged: the status stays PENDING_APPROVAL and
never transitions to EXPIRED as the claim states. -/
theorem c5_counterexample_no_expired_transition :
    amm_swap_confirm fxDB 2000 9 7 1 fxEvent = (.err "expired", fxDB) ∧
    fxSwap.status = .pending_approval ∧
    SwapStatus.pending_approval ≠ SwapStatus.expired := by
  refine ⟨?_, by decide, by decide⟩
  norm_num [amm_swap_confirm, fxDB, fxSwap, fxEvent, fxPayload,
    findSwap, List.find?]

/-- C5 amended: confirming a PENDING_APPROVAL swap after `deadline_ts` has
elapsed returns the `expired` error and performs no mutation at all; in
particular the swap's status remains PENDING_APPROVAL — the transition to
EXPIRED claimed by the spec never happens. -/
theorem c5_deadline_confirm_error_noop (db : DB) (now : ℤ)
    (platform_user_id uid : ℕ) (swap_id : ℤ) (ev : NostrEvent) (sw : Swap)
    (data : SwapPayload)
    (hpos : 0 < swap_id)
    (hfind : findSwap db.swaps swap_id uid = some sw)
    (hpend : sw.status = .pending_approval)
    (hf : ev.fields_ok = true) (hid : ev.id_matches = true)
    (hsig : ev.sig_valid = true)
    (hct : ev.content = some data)
    (htype : data.ptype = some "swap")
    (hsid : data.swap_id = some (sw.id : ℤ))
    (hnonce : data.nonce = some sw.nonce)
    (hdts : data.deadline_ts = some sw.deadline_ts)
    (hpl : data.pool_id.isNone = false)
    (hai : data.asset_in_id.isNone = false)
    (hao : data.asset_out_id.isNone = false)
    (ham : data.amount_in.isNone = false)
    (hmo : data.min_out.isNone = false)
    (hexp : sw.deadline_ts < now) :
    amm_swap_confirm db now platform_user_id uid swap_id ev =
      (.err "expired", db) := by
  unfold amm_swap_confirm
  rw [if_neg (not_le.mpr hpos), hfind]
  simp [hpend, hf, hid, hsig, hct, htype, hsid, hnonce, hdts, hpl, hai, hao,
    ham, hmo, hexp]

/-- C5 witness: the amended statement evaluated on the fixture after the
deadline. -/
theorem c5_deadline_confirm_error_noop_witness :
    amm_swap_confirm fxDB 2000 9 7 1 fxEvent = (.err "expired", fxDB) :=
  c5_deadline_confirm_error_noop fxDB 2000 9 7 1 fxEvent fxSwap fxPayload
    (by norm_num) (by decide) (by decide) (by decide) (by decide) (by decide)
    (by decide) (by decide) (by decide) (by decide) (by decide) (by decide)
    (by decide) (by decide) (by decide) (by decide) (by decide)

/-- C7 counterexample: a signed artifact whose payload carries
`amount_in = 999` — different from the server-held swap row's
`amount_in = 10` — is accepted and the swap executes: only `type`,
`swap_id`, `nonce` and `deadline_ts` are compared against the server row, so
a signature over substituted `pool_id`/`asset_in_id`/`asset_out_id`/
`amount_in`/`min_out` values still authorizes execution. -/
theorem c7_counterexample_tampered_amount_executes :
    (amm_swap_confirm fxDB 500 9 7 1 fxEventTampered).1 = .ok 1 fxOut ∧
    fxPayloadTampered.amount_in = some 999 ∧
    fxSwap.amount_in = 10 ∧
    (some (999 : ℚ) ≠ some (10 : ℚ)) := by
  norm_num [amm_swap_confirm, amm_swap_confirm_commit, fxDB, fxSwap, fxPool,
    fxLiq, fxEventTampered, fxPayloadTampered, fxBal, fxOut, findSwap,
    findPool, findLiq, List.find?, setBal, updateSwap, updateLiq, orDefault]

/-- C7 amended: `amm_swap_confirm` rejects (with the `mismatch` error and no
mutation) any artifact whose payload differs from the server-held swap row
in `type`, `swap_id`, `nonce` or `deadline_ts`; the remaining canonical
fields (`pool_id`, `asset_in_id`, `asset_out_id`, `amount_in`, `min_out`)
are not compared, and execution always uses the server-held values. -/
theorem c7_mismatch_rejected (db : DB) (now : ℤ)
    (platform_user_id uid : ℕ) (swap_id : ℤ) (ev : NostrEvent) (sw : Swap)
    (data : SwapPayload)
    (hpos : 0 < swap_id)
    (hfind : findSwap db.swaps swap_id uid = some sw)
    (hpend : sw.status = .pending_approval)
    (hf : ev.fields_ok = true) (hid : ev.id_matches = true)
    (hsig : ev.sig_valid = true)
    (hct : ev.content = some data)
    (h1 : data.ptype.isNone = false) (h2 : data.swap_id.isNone = false)
    (h3 : data.pool_id.isNone = false) (h4 : data.asset_in_id.isNone = false)
    (h5 : data.asset_out_id.isNone = false) (h6 : data.amount_in.isNone = false)
    (h7 : data.min_out.isNone = false) (h8 : data.nonce.isNone = false)
    (h9 : data.deadline_ts.isNone = false)
    (hbad : data.ptype ≠ some "swap" ∨ data.swap_id ≠ some (sw.id : ℤ) ∨
            data.nonce ≠ some sw.nonce ∨
            data.deadline_ts ≠ some sw.deadline_ts) :
    amm_swap_confirm db now platform_user_id uid swap_id ev =
      (.err "mismatch", db) := by
  unfold amm_swap_confirm
  rw [if_neg (not_le.mpr hpos), hfind]
  rcases hbad with h | h | h | h <;>
    simp [hpend, hf, hid, hsig, hct, h1, h2, h3, h4, h5, h6, h7, h8, h9, h]

/-- C7 witness: the amended statement evaluated on a wrong-nonce artifact
against the fixture. -/
theorem c7_mismatch_rejected_witness :
    amm_swap_confirm fxDB 500 9 7 1 fxEventBadNonce = (.err "mismatch", fxDB) :=
  c7_mismatch_rejected fxDB 500 9 7 1 fxEventBadNonce fxSwap fxPayloadBadNonce
    (by norm_num) (by decide) (by decide) (by decide) (by decide) (by decide)
    (by decide) (by decide) (by decide) (by decide) (by decide) (by decide)
    (by decide) (by decide) (by decide) (by decide)
    (Or.inr (Or.inr (Or.inl (by decide))))

/-- C6 counterexample: confirming the fixture swap whose stored
`min_out = 1000000` exceeds the re-quoted output returns the `slippage`
error and leaves the database — including the swap row — unchanged: the
status stays PENDING_APPROVAL and never transitions to FAILED as the claim
states. -/
theorem c6_counterexample_no_failed_transition :
    amm_swap_confirm fxDBHighMin 500 9 7 1 fxEvent =
      (.err "slippage", fxDBHighMin) ∧
    fxSwapHighMin.status = .pending_approval ∧
    SwapStatus.pending_approval ≠ SwapStatus.failed := by
  refine ⟨?_, by decide, by decide⟩
  norm_num [amm_swap_confirm, fxDBHighMin, fxSwapHighMin, fxPool, fxLiq,
    fxEvent, fxPayload, findSwap, findPool, findLiq, List.find?, orDefault]

/-- C6 amended: when the re-quoted output at confirm time is below the
stored `min_out`, `amm_swap_confirm` returns the `slippage` error and
performs no mutation at all; in particular the swap's status remains
PENDING_APPROVAL — the transition to the terminal FAILED state claimed by
the spec never happens. -/
theorem c6_slippage_confirm_error_noop (db : DB) (now : ℤ)
    (platform_user_id uid : ℕ) (swap_id : ℤ) (ev : NostrEvent) (sw : Swap)
    (data : SwapPayload) (pool : Pool) (pl : PoolLiquidity)
    (hpos : 0 < swap_id)
    (hfind : findSwap db.swaps swap_id uid = some sw)
    (hpend : sw.status = .pending_approval)
    (hf : ev.fields_ok = true) (hid : ev.id_matches = true)
    (hsig : ev.sig_valid = true)
    (hct : ev.content = some data)
    (htype : data.ptype = some "swap")
    (hsid : data.swap_id = some (sw.id : ℤ))
    (hnonce : data.nonce = some sw.nonce)
    (hdts : data.deadline_ts = some sw.deadline_ts)
    (hplid : data.pool_id.isNone = false)
    (hai : data.asset_in_id.isNone = false)
    (hao : data.asset_out_id.isNone = false)
    (ham : data.amount_in.isNone = false)
    (hmo : data.min_out.isNone = false)
    (hdl : ¬ sw.deadline_ts < now)
    (hpool : findPool db.pools (sw.pool_id : ℤ) = some pool)
    (hliq : findLiq db.liqs pool.id = some pl)
    (hRb : 0 < effBtc pl) (hRr : 0 < effRgb pl)
    (hdirslip : sw.asset_in_id = pool.asset_btc_id ∧
        outBtcIn pool pl sw.amount_in < sw.min_out ∨
      sw.asset_in_id ≠ pool.asset_btc_id ∧
        confirmOutRgbIn pool pl sw.amount_in < sw.min_out) :
    amm_swap_confirm db now platform_user_id uid swap_id ev =
      (.err "slippage", db) := by
  unfold amm_swap_confirm
  rw [if_neg (not_le.mpr hpos), hfind]
  rw [effBtc] at hRb
  rw [effRgb] at hRr
  rcases hdirslip with ⟨hdir, hslip⟩ | ⟨hdir, hslip⟩
  · simp only [outBtcIn, effBtc, effRgb] at hslip
    simp [hpend, hf, hid, hsig, hct, htype, hsid, hnonce, hdts, hplid, hai,
      hao, ham, hmo, hdl, hpool, hliq, hdir, hslip, hRb.not_le, hRr.not_le]
  · simp only [confirmOutRgbIn, effBtc, effRgb] at hslip
    simp [hpend, hf, hid, hsig, hct, htype, hsid, hnonce, hdts, hplid, hai,
      hao, ham, hmo, hdl, hpool, hliq, hdir, hslip, hRb.not_le, hRr.not_le]

/-- C6 witness: the amended statement evaluated on the high-`min_out`
fixture. -/
theorem c6_slippage_confirm_error_noop_witness :
    amm_swap_confirm fxDBHighMin 500 9 7 1 fxEvent =
      (.err "slippage", fxDBHighMin) :=
  c6_slippage_confirm_error_noop fxDBHighMin 500 9 7 1 fxEvent fxSwapHighMin
    fxPayload fxPool fxLiq
    (by norm_num) (by decide) (by decide) (by decide) (by decide) (by decide)
    (by decide) (by decide) (by decide) (by decide) (by decide) (by decide)
    (by decide) (by decide) (by decide) (by decide) (by decide) (by decide)
    (by decide)
    (by norm_num [effBtc, fxLiq]) (by norm_num [effRgb, fxLiq])
    (Or.inl ⟨by decide,
      by norm_num [outBtcIn, effBtc, effRgb, fxPool, fxLiq, fxSwapHighMin, orDefault]⟩)

/-- C8 counterexample: on an active pool whose stored `fee_bps` is `0`, the
quote does not return the claimed formula with `fee_total = 0/10000 = 0`
(which would give `10·10000/(100+10) = 10000/11`): `int(pool.fee_bps or
100)` replaces the stored `0` by `100`, so the quote returns the 1%-fee
output `990000/1099` and reports `fee_bps = 100`. -/
theorem c8_counterexample_zero_fee_pool :
    amm_quote [fxPoolZeroFee] [fxLiq] 1 "BTC" 10 = .ok 1 "BTC" 10 fxOut 100 ∧
    fxOut ≠ 10 * (1 - (fxPoolZeroFee.fee_bps : ℚ) / 10000) * 10000 /
        (100 + 10 * (1 - (fxPoolZeroFee.fee_bps : ℚ) / 10000)) := by
  refine ⟨?_, by norm_num [fxPoolZeroFee, fxOut]⟩
  norm_num [amm_quote, _amm_effective_reserves, findPool, findLiq,
    List.find?, fxPoolZeroFee, fxLiq, fxOut, orDefault]

/-- C8 amended: for every active pool and `amount_in > 0`, `amm_quote`
returns, with positive effective reserves, exactly the claimed
constant-product outputs — fee on the input for the settlement (BTC) leg,
fee on the output for the registered (RGB) leg — where
`fee_total = int(fee_bps or 100)/10000` (a stored `fee_bps` of 0 or NULL is
replaced by the default 100); and it returns `no_liquidity` whenever either
effective reserve is ≤ 0. -/
theorem c8_quote_formulas (pools : List Pool) (liqs : List PoolLiquidity)
    (pool : Pool) (pl : PoolLiquidity) (pid : ℤ) (a : ℚ)
    (hpool : findPool pools pid = some pool)
    (hliq : findLiq liqs pool.id = some pl)
    (hpid : 0 < pid) (ha : 0 < a) :
    (0 < effBtc pl → 0 < effRgb pl →
      amm_quote pools liqs pid "BTC" a =
        .ok pool.id "BTC" a (outBtcIn pool pl a) (orDefault pool.fee_bps 100)) ∧
    (0 < effBtc pl → 0 < effRgb pl →
      amm_quote pools liqs pid "RGB" a =
        .ok pool.id "RGB" a (quoteOutRgbIn pool pl a) (orDefault pool.fee_bps 100)) ∧
    (effBtc pl ≤ 0 ∨ effRgb pl ≤ 0 →
      amm_quote pools liqs pid "BTC" a = .err "no_liquidity" ∧
        amm_quote pools liqs pid "RGB" a = .err "no_liquidity") :=
  ⟨fun hRb hRr => quote_btc_ok pools liqs pool pl pid a hpool hliq hpid ha hRb hRr,
   fun hRb hRr => quote_rgb_ok pools liqs pool pl pid a hpool hliq hpid ha hRb hRr,
   fun hR => quote_noliq pools liqs pool pl pid a hpool hliq hpid ha hR⟩

/-- C8 witness: the amended statement evaluated on the fixture pool. -/
theorem c8_quote_formulas_witness :
    (0 < effBtc fxLiq → 0 < effRgb fxLiq →
      amm_quote [fxPool] [fxLiq] 1 "BTC" 10 =
        .ok fxPool.id "BTC" 10 (outBtcIn fxPool fxLiq 10) (orDefault fxPool.fee_bps 100)) ∧
    (0 < effBtc fxLiq → 0 < effRgb fxLiq →
      amm_quote [fxPool] [fxLiq] 1 "RGB" 10 =
        .ok fxPool.id "RGB" 10 (quoteOutRgbIn fxPool fxLiq 10) (orDefault fxPool.fee_bps 100)) ∧
    (effBtc fxLiq ≤ 0 ∨ effRgb fxLiq ≤ 0 →
      amm_quote [fxPool] [fxLiq] 1 "BTC" 10 = .err "no_liquidity" ∧
        amm_quote [fxPool] [fxLiq] 1 "RGB" 10 = .err "no_liquidity") :=
  c8_quote_formulas [fxPool] [fxLiq] fxPool fxLiq 1 10
    (by decide) (by decide) (by norm_num) (by norm_num)

/-- C9 counterexample: with equal reserves, raising the stored `fee_bps`
from 0 to 50 *increases* the quoted output (the stored 0 is replaced by 100
bps by `int(pool.fee_bps or 100)`), so `amount_out` is not strictly
decreasing in `fee_bps` over `0 ≤ fee_bps < 10000`. -/
theorem c9_counterexample_fee_not_strictly_decreasing :
    amm_quote [fxPoolZeroFee] [fxLiq] 1 "BTC" 10 =
      .ok 1 "BTC" 10 (990000 / 1099) 100 ∧
    amm_quote [fxPoolFee50] [fxLiq] 1 "BTC" 10 =
      .ok 1 "BTC" 10 (1990000 / 2199) 50 ∧
    fxPoolZeroFee.fee_bps < fxPoolFee50.fee_bps ∧
    ((990000 : ℚ) / 1099) < 1990000 / 2199 := by
  refine ⟨?_, ?_, by decide, by norm_num⟩ <;>
    norm_num [amm_quote, _amm_effective_reserves, findPool, findLiq,
      List.find?, fxPoolZeroFee, fxPoolFee50, fxLiq, orDefault]

/-- C9 amended: the quoted `amount_out` is strictly increasing in
`amount_in` in both directions for any stored `fee_bps < 10000`; it is
strictly decreasing in `fee_bps` in both directions over
`1 ≤ fee_bps < 10000` — strict decrease fails at `fee_bps = 0`, which
`int(pool.fee_bps or 100)` maps to the default 100. -/
theorem c9_quote_monotonicity :
    (∀ (pool : Pool) (pl : PoolLiquidity) (a1 a2 : ℚ),
        pool.is_active = true → pl.pool_id = pool.id → 0 < pool.id →
        pool.fee_bps < 10000 →
        0 < effBtc pl → 0 < effRgb pl → 0 < a1 → a1 < a2 →
        amountOutOf (amm_quote [pool] [pl] (pool.id : ℤ) "BTC" a1) <
          amountOutOf (amm_quote [pool] [pl] (pool.id : ℤ) "BTC" a2)) ∧
    (∀ (pool : Pool) (pl : PoolLiquidity) (a1 a2 : ℚ),
        pool.is_active = true → pl.pool_id = pool.id → 0 < pool.id →
        pool.fee_bps < 10000 →
        0 < effBtc pl → 0 < effRgb pl → 0 < a1 → a1 < a2 →
        amountOutOf (amm_quote [pool] [pl] (pool.id : ℤ) "RGB" a1) <
          amountOutOf (amm_quote [pool] [pl] (pool.id : ℤ) "RGB" a2)) ∧
    (∀ (pool : Pool) (pl : PoolLiquidity) (a : ℚ) (f1 f2 : ℕ),
        pool.is_active = true → pl.pool_id = pool.id → 0 < pool.id →
        1 ≤ f1 → f1 < f2 → f2 < 10000 →
        0 < effBtc pl → 0 < effRgb pl → 0 < a →
        amountOutOf (amm_quote [{pool with fee_bps := f2}] [pl] (pool.id : ℤ) "BTC" a) <
          amountOutOf (amm_quote [{pool with fee_bps := f1}] [pl] (pool.id : ℤ) "BTC" a)) ∧
    (∀ (pool : Pool) (pl : PoolLiquidity) (a : ℚ) (f1 f2 : ℕ),
        pool.is_active = true → pl.pool_id = pool.id → 0 < pool.id →
        1 ≤ f1 → f1 < f2 → f2 < 10000 →
        0 < effBtc pl → 0 < effRgb pl → 0 < a →
        amountOutOf (amm_quote [{pool with fee_bps := f2}] [pl] (pool.id : ℤ) "RGB" a) <
          amountOutOf (amm_quote [{pool with fee_bps := f1}] [pl] (pool.id : ℤ) "RGB" a)) := by
  have hcast : ∀ f : ℕ, f < 10000 → (orDefault f 100 : ℚ) < 10000 := by
    intro f hf
    exact_mod_cast orDefault_fee_lt f hf
  refine ⟨?_, ?_, ?_, ?_⟩
  · intro pool pl a1 a2 hact hplid hidpos hfee hRb hRr ha1 hlt
    have hpid : (0 : ℤ) < (pool.id : ℤ) := by exact_mod_cast hidpos
    rw [quote_btc_ok [pool] [pl] pool pl _ a1 (findPool_singleton pool hact)
        (findLiq_singleton pool pl hplid) hpid ha1 hRb hRr,
      quote_btc_ok [pool] [pl] pool pl _ a2 (findPool_singleton pool hact)
        (findLiq_singleton pool pl hplid) hpid (ha1.trans hlt) hRb hRr]
    have hk : 0 < 1 - (orDefault pool.fee_bps 100 : ℚ) / 10000 := by
      have := hcast pool.fee_bps hfee
      linarith
    simp only [amountOutOf, outBtcIn]
    exact cp_payout_strict_mono _ _ _ _ hRb hRr (mul_pos ha1 hk).le
      (mul_lt_mul_of_pos_right hlt hk)
  · intro pool pl a1 a2 hact hplid hidpos hfee hRb hRr ha1 hlt
    have hpid : (0 : ℤ) < (pool.id : ℤ) := by exact_mod_cast hidpos
    rw [quote_rgb_ok [pool] [pl] pool pl _ a1 (findPool_singleton pool hact)
        (findLiq_singleton pool pl hplid) hpid ha1 hRb hRr,
      quote_rgb_ok [pool] [pl] pool pl _ a2 (findPool_singleton pool hact)
        (findLiq_singleton pool pl hplid) hpid (ha1.trans hlt) hRb hRr]
    have hk : 0 < 1 - (orDefault pool.fee_bps 100 : ℚ) / 10000 := by
      have := hcast pool.fee_bps hfee
      linarith
    simp only [amountOutOf, quoteOutRgbIn]
    exact mul_lt_mul_of_pos_right
      (cp_payout_strict_mono _ _ _ _ hRr hRb ha1.le hlt) hk
  · intro pool pl a f1 f2 hact hplid hidpos hf1 hf12 hf2 hRb hRr ha
    have hpid : (0 : ℤ) < (pool.id : ℤ) := by exact_mod_cast hidpos
    rw [quote_btc_ok [{pool with fee_bps := f2}] [pl] {pool with fee_bps := f2}
        pl _ a (findPool_singleton _ hact) (findLiq_singleton _ pl hplid) hpid ha hRb hRr,
      quote_btc_ok [{pool with fee_bps := f1}] [pl] {pool with fee_bps := f1}
        pl _ a (findPool_singleton _ hact) (findLiq_singleton _ pl hplid) hpid ha hRb hRr]
    have e1 : orDefault f1 100 = f1 := orDefault_id_of_pos f1 100 hf1
    have e2 : orDefault f2 100 = f2 := orDefault_id_of_pos f2 100 (by omega)
    have hq : (f1 : ℚ) < (f2 : ℚ) := by exact_mod_cast hf12
    have hk2 : 0 < 1 - (f2 : ℚ) / 10000 := by
      have : (f2 : ℚ) < 10000 := by exact_mod_cast hf2
      linarith
    simp only [amountOutOf, outBtcIn, e1, e2]
    exact cp_payout_strict_mono _ _ _ _ hRb hRr (mul_pos ha hk2).le
      (by nlinarith)
  · intro pool pl a f1 f2 hact hplid hidpos hf1 hf12 hf2 hRb hRr ha
    have hpid : (0 : ℤ) < (pool.id : ℤ) := by exact_mod_cast hidpos
    rw [quote_rgb_ok [{pool with fee_bps := f2}] [pl] {pool with fee_bps := f2}
        pl _ a (findPool_singleton _ hact) (findLiq_singleton _ pl hplid) hpid ha hRb hRr,
      quote_rgb_ok [{pool with fee_bps := f1}] [pl] {pool with fee_bps := f1}
        pl _ a (findPool_singleton _ hact) (findLiq_singleton _ pl hplid) hpid ha hRb hRr]
    have e1 : orDefault f1 100 = f1 := orDefault_id_of_pos f1 100 hf1
    have e2 : orDefault f2 100 = f2 := orDefault_id_of_pos f2 100 (by omega)
    have hq : (f1 : ℚ) < (f2 : ℚ) := by exact_mod_cast hf12
    have hgross : 0 < (a * effBtc pl) / (effRgb pl + a) :=
      div_pos (mul_pos ha hRb) (by linarith)
    simp only [amountOutOf, quoteOutRgbIn, e1, e2]
    exact mul_lt_mul_of_pos_left (by linarith) hgross

/-- C9 witness: the amended statement evaluated on the fixture pool with
`amount_in` 1 < 2 and fees 50 < 100. -/
theorem c9_quote_monotonicity_witness :
    amountOutOf (amm_quote [fxPool] [fxLiq] (fxPool.id : ℤ) "BTC" 1) <
      amountOutOf (amm_quote [fxPool] [fxLiq] (fxPool.id : ℤ) "BTC" 2) ∧
    amountOutOf (amm_quote [fxPool] [fxLiq] (fxPool.id : ℤ) "RGB" 1) <
      amountOutOf (amm_quote [fxPool] [fxLiq] (fxPool.id : ℤ) "RGB" 2) ∧
    amountOutOf (amm_quote [{fxPool with fee_bps := 100}] [fxLiq] (fxPool.id : ℤ) "BTC" 10) <
      amountOutOf (amm_quote [{fxPool with fee_bps := 50}] [fxLiq] (fxPool.id : ℤ) "BTC" 10) ∧
    amountOutOf (amm_quote [{fxPool with fee_bps := 100}] [fxLiq] (fxPool.id : ℤ) "RGB" 10) <
      amountOutOf (amm_quote [{fxPool with fee_bps := 50}] [fxLiq] (fxPool.id : ℤ) "RGB" 10) :=
  ⟨c9_quote_monotonicity.1 fxPool fxLiq 1 2 (by decide) (by decide) (by decide)
      (by decide) (by norm_num [effBtc, fxLiq]) (by norm_num [effRgb, fxLiq])
      (by norm_num) (by norm_num),
   c9_quote_monotonicity.2.1 fxPool fxLiq 1 2 (by decide) (by decide) (by decide)
      (by decide) (by norm_num [effBtc, fxLiq]) (by norm_num [effRgb, fxLiq])
      (by norm_num) (by norm_num),
   c9_quote_monotonicity.2.2.1 fxPool fxLiq 10 50 100 (by decide) (by decide)
      (by decide) (by decide) (by decide) (by decide)
      (by norm_num [effBtc, fxLiq]) (by norm_num [effRgb, fxLiq]) (by norm_num),
   c9_quote_monotonicity.2.2.2 fxPool fxLiq 10 50 100 (by decide) (by decide)
      (by decide) (by decide) (by decide) (by decide)
      (by norm_num [effBtc, fxLiq]) (by norm_num [effRgb, fxLiq]) (by norm_num)⟩

/-- C10: for a pending BTC-in swap with a valid, timely artifact that passes
the liquidity and slippage checks, `amm_swap_confirm` resolves to the
`insufficient_funds` error exactly when the trader's available balance of
`asset_in` is below `2 · amount_in`: the direction branch checks
`available ≥ amount_in` and debits `amount_in`, and the commit tail then
re-checks `available ≥ amount_in` against the already-debited balance, so
the spec's natural precondition `available ≥ amount_in` is not sufficient
for execution. -/
theorem c10_insufficient_funds_two_x_threshold (db : DB) (now : ℤ)
    (platform_user_id uid : ℕ) (swap_id : ℤ) (ev : NostrEvent) (sw : Swap)
    (data : SwapPayload) (pool : Pool) (pl : PoolLiquidity)
    (hpos : 0 < swap_id)
    (hfind : findSwap db.swaps swap_id uid = some sw)
    (hpend : sw.status = .pending_approval)
    (hf : ev.fields_ok = true) (hid : ev.id_matches = true)
    (hsig : ev.sig_valid = true)
    (hct : ev.content = some data)
    (htype : data.ptype = some "swap")
    (hsid : data.swap_id = some (sw.id : ℤ))
    (hnonce : data.nonce = some sw.nonce)
    (hdts : data.deadline_ts = some sw.deadline_ts)
    (hplid : data.pool_id.isNone = false)
    (hai : data.asset_in_id.isNone = false)
    (hao : data.asset_out_id.isNone = false)
    (ham : data.amount_in.isNone = false)
    (hmo : data.min_out.isNone = false)
    (hdl : ¬ sw.deadline_ts < now)
    (hpool : findPool db.pools (sw.pool_id : ℤ) = some pool)
    (hliq : findLiq db.liqs pool.id = some pl)
    (hdir : sw.asset_in_id = pool.asset_btc_id)
    (hRb : 0 < effBtc pl) (hRr : 0 < effRgb pl)
    (hok : ¬ outBtcIn pool pl sw.amount_in < sw.min_out)
    (hain : 0 < sw.amount_in)
    (hdist : sw.asset_out_id ≠ sw.asset_in_id)
    (hpuid : platform_user_id ≠ uid) :
    ((amm_swap_confirm db now platform_user_id uid swap_id ev).1 =
        .err "insufficient_funds") ↔
      (db.balances uid sw.asset_in_id).available < 2 * sw.amount_in := by
  rw [effBtc] at hRb
  rw [effRgb] at hRr
  simp only [outBtcIn, effBtc, effRgb] at hok
  rw [hdir] at hdist ⊢
  by_cases h1 : (db.balances uid pool.asset_btc_id).available < sw.amount_in
  · refine iff_of_true ?_ (by linarith)
    unfold amm_swap_confirm
    rw [if_neg (not_le.mpr hpos), hfind]
    simp [hpend, hf, hid, hsig, hct, htype, hsid, hnonce, hdts, hplid, hai,
      hao, ham, hmo, hdl, hpool, hliq, hdir, hok, hRb.not_le, hRr.not_le, h1]
  · by_cases h2 : (db.balances uid pool.asset_btc_id).available < 2 * sw.amount_in
    · have hc : (db.balances uid pool.asset_btc_id).available - sw.amount_in <
          sw.amount_in := by linarith
      refine iff_of_true ?_ h2
      unfold amm_swap_confirm
      rw [if_neg (not_le.mpr hpos), hfind]
      simp [hpend, hf, hid, hsig, hct, htype, hsid, hnonce, hdts, hplid, hai,
        hao, ham, hmo, hdl, hpool, hliq, hdir, hok, hRb.not_le, hRr.not_le, h1,
        amm_swap_confirm_commit, setBal, ite_apply, hdist, Ne.symm hdist,
        hpuid, Ne.symm hpuid, hc]
    · have hc : ¬ (db.balances uid pool.asset_btc_id).available - sw.amount_in <
          sw.amount_in := by linarith
      refine iff_of_false ?_ h2
      unfold amm_swap_confirm
      rw [if_neg (not_le.mpr hpos), hfind]
      simp [hpend, hf, hid, hsig, hct, htype, hsid, hnonce, hdts, hplid, hai,
        hao, ham, hmo, hdl, hpool, hliq, hdir, hok, hRb.not_le, hRr.not_le, h1,
        amm_swap_confirm_commit, setBal, ite_apply, hdist, Ne.symm hdist,
        hpuid, Ne.symm hpuid, hc]

/-- C10 witness: the threshold equivalence evaluated on the fixture (user 7
holds 100 ≥ 2·10, so neither side holds and the swap executes). -/
theorem c10_insufficient_funds_two_x_threshold_witness :
    ((amm_swap_confirm fxDB 500 9 7 1 fxEvent).1 = .err "insufficient_funds") ↔
      (fxDB.balances 7 fxSwap.asset_in_id).available < 2 * fxSwap.amount_in :=
  c10_insufficient_funds_two_x_threshold fxDB 500 9 7 1 fxEvent fxSwap
    fxPayload fxPool fxLiq
    (by norm_num) (by decide) (by decide) (by decide) (by decide) (by decide)
    (by decide) (by decide) (by decide) (by decide) (by decide) (by decide)
    (by decide) (by decide) (by decide) (by decide) (by decide) (by decide)
    (by decide) (by decide)
    (by norm_num [effBtc, fxLiq]) (by norm_num [effRgb, fxLiq])
    (by norm_num [outBtcIn, effBtc, effRgb, fxPool, fxLiq, fxSwap, orDefault])
    (by norm_num [fxSwap]) (by decide) (by decide)

end TokenArena
